import Mathlib

/-!
Shallow embedding of the mercari-build-training item service
(`src/python/main.py`) and verification of its specification claims.

Modelling conventions:

* Bytes are `Nat` values below 256, byte strings are `List Nat`.
* `hashlib.sha256(...).hexdigest()` is embedded as a full executable
  SHA-256 over byte lists (`sha256`, `hexDigest`).
* The filesystem is an association list from path strings to byte lists.
  The handlers build paths by plain concatenation (as `pathlib`'s `/`
  operator does); the operating system resolves `.` and `..` segments,
  which is modelled by `normalizePath` applied at the point where the
  filesystem is actually read or written.
* The SQLite database is a record of the two tables created by
  `setup_database`, plus the AUTOINCREMENT counters.  SQL statements are
  embedded per query; a SELECT whose column list names a column absent
  from the table schema fails with `SqlError.noSuchColumn`, exactly as
  `sqlite3` raises `OperationalError: no such column` at prepare time.
* Foreign-key enforcement in SQLite is a per-connection setting that
  defaults to OFF.  `setup_database` turns it on for its own short-lived
  connection only; the request-scoped connections produced by `get_db`
  never execute `PRAGMA foreign_keys`, so inserts through them run with
  enforcement disabled.  This is captured by the flag
  `getDbForeignKeysEnabled`.
-/

set_option autoImplicit false

deriving instance DecidableEq for Except

namespace Mercari

/-! ## Bytes and SHA-256 (`hashlib.sha256(image_data).hexdigest()`) -/

def M32 : Nat := 4294967296

def rotr32 (x n : Nat) : Nat := ((x >>> n) ||| (x <<< (32 - n))) % M32

def not32 (x : Nat) : Nat := x ^^^ (M32 - 1)

def sha256K : List Nat :=
  [1116352408, 1899447441, 3049323471, 3921009573, 961987163, 1508970993,
   2453635748, 2870763221, 3624381080, 310598401, 607225278, 1426881987,
   1925078388, 2162078206, 2614888103, 3248222580, 3835390401, 4022224774,
   264347078, 604807628, 770255983, 1249150122, 1555081692, 1996064986,
   2554220882, 2821834349, 2952996808, 3210313671, 3336571891, 3584528711,
   113926993, 338241895, 666307205, 773529912, 1294757372, 1396182291,
   1695183700, 1986661051, 2177026350, 2456956037, 2730485921, 2820302411,
   3259730800, 3345764771, 3516065817, 3600352804, 4094571909, 275423344,
   430227734, 506948616, 659060556, 883997877, 958139571, 1322822218,
   1537002063, 1747873779, 1955562222, 2024104815, 2227730452, 2361852424,
   2428436474, 2756734187, 3204031479, 3329325298]

def sha256H0 : List Nat :=
  [1779033703, 3144134277, 1013904242, 2773480762, 1359893119,
   2600822924, 528734635, 1541459225]

def toBytesBE (len n : Nat) : List Nat :=
  (List.range len).map (fun i => (n >>> (8 * (len - 1 - i))) &&& 255)

def padMessage (msg : List Nat) : List Nat :=
  msg ++ [128] ++ List.replicate ((119 - msg.length % 64) % 64) 0 ++ toBytesBE 8 (8 * msg.length)

def bytesToWordBE (b : List Nat) : Nat := b.foldl (fun acc x => acc * 256 + x) 0

def blockWords (block : List Nat) : List Nat :=
  (List.range 16).map (fun i => bytesToWordBE ((block.drop (4 * i)).take 4))

def scheduleStep (wrev : List Nat) : Nat :=
  let g (i : Nat) : Nat := wrev.getD i 0
  let s0 := (rotr32 (g 14) 7) ^^^ (rotr32 (g 14) 18) ^^^ ((g 14) >>> 3)
  let s1 := (rotr32 (g 1) 17) ^^^ (rotr32 (g 1) 19) ^^^ ((g 1) >>> 10)
  (g 15 + s0 + g 6 + s1) % M32

def buildSchedule (w16 : List Nat) : List Nat :=
  ((List.range 48).foldl (fun wrev _ => scheduleStep wrev :: wrev) w16.reverse).reverse

def sha256Round (hv : List Nat) (k : Nat) (w : Nat) : List Nat :=
  let a := hv.getD 0 0
  let b := hv.getD 1 0
  let c := hv.getD 2 0
  let d := hv.getD 3 0
  let e := hv.getD 4 0
  let f := hv.getD 5 0
  let g := hv.getD 6 0
  let h := hv.getD 7 0
  let S1 := (rotr32 e 6) ^^^ (rotr32 e 11) ^^^ (rotr32 e 25)
  let ch := (e &&& f) ^^^ ((not32 e) &&& g)
  let t1 := (h + S1 + ch + k + w) % M32
  let S0 := (rotr32 a 2) ^^^ (rotr32 a 13) ^^^ (rotr32 a 22)
  let maj := (a &&& b) ^^^ (a &&& c) ^^^ (b &&& c)
  let t2 := (S0 + maj) % M32
  [(t1 + t2) % M32, a, b, c, (d + t1) % M32, e, f, g]

def sha256Compress (hv : List Nat) (block : List Nat) : List Nat :=
  let w := buildSchedule (blockWords block)
  let hv2 := (sha256K.zip w).foldl (fun s p => sha256Round s p.1 p.2) hv
  (hv.zip hv2).map (fun p => (p.1 + p.2) % M32)

def chunks64 (l : List Nat) : List (List Nat) :=
  (List.range (l.length / 64)).map (fun i => (l.drop (64 * i)).take 64)

/-- SHA-256 digest of a byte list, as its 32 digest bytes. -/
def sha256 (msg : List Nat) : List Nat :=
  let hv := (chunks64 (padMessage msg)).foldl sha256Compress sha256H0
  hv.foldr (fun w acc => toBytesBE 4 w ++ acc) []

def hexChar (n : Nat) : Char := if n < 10 then Char.ofNat (48 + n) else Char.ofNat (87 + n)

def byteToHex (b : Nat) : String := String.mk [hexChar (b / 16), hexChar (b % 16)]

/-- Lowercase hexadecimal rendering of a byte list (`hexdigest()`). -/
def hexDigest (bs : List Nat) : String :=
  String.mk (bs.foldr (fun b acc => hexChar (b / 16) :: hexChar (b % 16) :: acc) [])

/-! ## Strings and paths -/

/-- Does the character list start with the given pattern? -/
def listStartsWith : List Char → List Char → Bool
  | _, [] => true
  | [], _ :: _ => false
  | a :: as, b :: bs => a == b && listStartsWith as bs

/-- Python's `str.endswith`. -/
def strEndsWith (s pat : String) : Bool := listStartsWith s.data.reverse pat.data.reverse

def strStartsWith (s pat : String) : Bool := listStartsWith s.data pat.data

/-- Is `needle` a contiguous substring of `hay` (SQL `LIKE "%needle%"`)? -/
def containsSub : List Char → List Char → Bool
  | [], needle => needle.isEmpty
  | a :: rest, needle => listStartsWith (a :: rest) needle || containsSub rest needle

def splitOnChar (sep : Char) : List Char → List (List Char)
  | [] => [[]]
  | c :: rest =>
    let r := splitOnChar sep rest
    if c == sep then [] :: r
    else
      match r with
      | [] => [[c]]
      | g :: gs => (c :: g) :: gs

def pathSegs (p : String) : List String := (splitOnChar '/' p.data).map (fun g => String.mk g)

/-- One step of operating-system path resolution: drop empty and `.`
segments, let `..` cancel the preceding segment. -/
def normSegsStep (acc : List String) (seg : String) : List String :=
  if seg = "" || seg = "." then acc
  else if seg = ".." then acc.dropLast
  else acc ++ [seg]

def joinSegs : List String → String
  | [] => ""
  | s :: rest => rest.foldl (fun a b => a ++ "/" ++ b) s

/-- Resolve `.` and `..` segments of a path, as the operating system does
when a file is actually opened. -/
def normalizePath (p : String) : String := joinSegs ((pathSegs p).foldl normSegsStep [])

/-- The handlers build image paths by direct concatenation with the
`images` directory (`images / image_name` in `pathlib`): no
normalization and no containment check happens at this point. -/
def imagePath (name : String) : String := "images/" ++ name

/-! ## Filesystem -/

/-- The filesystem: an association list from (normalized) path to bytes. -/
abbrev FS := List (String × List Nat)

def fsWriteKey : FS → String → List Nat → FS
  | [], k, v => [(k, v)]
  | (k0, v0) :: rest, k, v =>
    if k0 = k then (k, v) :: rest else (k0, v0) :: fsWriteKey rest k v

/-- Write a file (`open(path, "wb")` then `write`): overwrites the
existing content, or creates the file. -/
def fsWrite (fs : FS) (p : String) (v : List Nat) : FS := fsWriteKey fs (normalizePath p) v

/-- Read a file's bytes, resolving the path as the operating system does. -/
def fsRead (fs : FS) (p : String) : Option (List Nat) := fs.lookup (normalizePath p)

/-- `pathlib.Path.exists()`. -/
def fsExists (fs : FS) (p : String) : Bool := (fsRead fs p).isSome

/-! ## Database -/

/-- A row of the `categories` table (`id INTEGER PRIMARY KEY AUTOINCREMENT,
name TEXT NOT NULL UNIQUE`). -/
structure CategoryRow where
  id : Nat
  name : String
deriving DecidableEq

/-- A row of the `items` table (`id INTEGER PRIMARY KEY AUTOINCREMENT,
name TEXT NOT NULL, category_id INTEGER NOT NULL, image_name TEXT NOT NULL`). -/
structure ItemRow where
  id : Nat
  name : String
  category_id : Nat
  image_name : String
deriving DecidableEq

/-- The database created by `setup_database`: the two tables plus the
AUTOINCREMENT counters (SQLite assigns ids starting at 1). -/
structure DBState where
  categories : List CategoryRow
  items : List ItemRow
  nextCategoryId : Nat
  nextItemId : Nat
deriving DecidableEq

def emptyDB : DBState := { categories := [], items := [], nextCategoryId := 1, nextItemId := 1 }

inductive SqlError where
  | noSuchColumn (c : String)
  | foreignKeyViolation
deriving DecidableEq

/-- An error surfaced by a handler: either an explicit `HTTPException`
or a propagated `sqlite3` error (which FastAPI turns into a 500). -/
inductive AppError where
  | http (status : Nat) (detail : String)
  | sql (e : SqlError)
deriving DecidableEq

inductive SqlValue where
  | int (n : Nat)
  | text (s : String)
deriving DecidableEq

/-- A fetched row as `dict(row)` renders it: column names paired with
values, in SELECT order. -/
abbrev Row := List (String × SqlValue)

def rowKeys (r : Row) : List String := r.map Prod.fst

/-- The columns of the `items` table, from `setup_database`. -/
def itemsTableColumns : List String := ["id", "name", "category_id", "image_name"]

def itemColumnValue (r : ItemRow) (c : String) : SqlValue :=
  if c = "id" then .int r.id
  else if c = "name" then .text r.name
  else if c = "category_id" then .int r.category_id
  else .text r.image_name

/-- Evaluate `SELECT <cols> FROM items` over already-filtered rows.
SQLite rejects the statement at prepare time when a named column is not
in the table schema (`OperationalError: no such column`), regardless of
how many rows there are. -/
def selectFromItems (cols : List String) (rows : List ItemRow) : Except SqlError (List Row) :=
  match cols.find? (fun c => !(itemsTableColumns.contains c)) with
  | some c => .error (.noSuchColumn c)
  | none => .ok (rows.map (fun r => cols.map (fun c => (c, itemColumnValue r c))))

/-- `get_category_id`: look the name up in `categories`; if present
return its id, otherwise INSERT a new row and return `lastrowid`. -/
def get_category_id (db : DBState) (category_name : String) : Nat × DBState :=
  match db.categories.find? (fun c => c.name == category_name) with
  | some c => (c.id, db)
  | none =>
    let newId := db.nextCategoryId
    (newId,
     { db with
        categories := db.categories ++ [{ id := newId, name := category_name }],
        nextCategoryId := newId + 1 })

/-- The pydantic `Item` model: the payload of `insert_item`. -/
structure Item where
  name : String
  category_id : Nat
  image_name : String
deriving DecidableEq

/-- `INSERT INTO items (name, category_id, image_name) VALUES (?, ?, ?)`
as SQLite executes it on a connection whose `foreign_keys` pragma is
`fkEnforced`: with enforcement on, a dangling `category_id` raises a
foreign-key violation; with it off, the row is appended regardless. -/
def sqliteInsertItem (fkEnforced : Bool) (item : Item) (db : DBState) : Except SqlError DBState :=
  if fkEnforced && !(db.categories.any (fun c => c.id == item.category_id)) then
    .error .foreignKeyViolation
  else
    .ok { db with
            items := db.items ++
              [{ id := db.nextItemId, name := item.name,
                 category_id := item.category_id, image_name := item.image_name }],
            nextItemId := db.nextItemId + 1 }

/-- The `foreign_keys` pragma of the connections yielded by `get_db`:
`get_db` runs `sqlite3.connect` and never executes
`PRAGMA foreign_keys = ON`, and SQLite's per-connection default is OFF.
(Only `setup_database`'s own connection, used just for CREATE TABLE,
turns the pragma on.) -/
def getDbForeignKeysEnabled : Bool := false

/-- `insert_item(item, db_conn)` running on a `get_db` connection. -/
def insert_item (item : Item) (db : DBState) : Except SqlError DBState :=
  sqliteInsertItem getDbForeignKeysEnabled item db

/-- One joined row of `get_items`'s SELECT:
`items.id, items.name, categories.name AS category, items.image_name`. -/
def joinedRow (it : ItemRow) (c : CategoryRow) : Row :=
  [("id", SqlValue.int it.id), ("name", SqlValue.text it.name),
   ("category", SqlValue.text c.name), ("image_name", SqlValue.text it.image_name)]

/-- `GET /items`: `SELECT items.id, items.name, categories.name AS category,
items.image_name FROM items JOIN categories ON items.category_id =
categories.id`.  An inner join: items without a matching category are
dropped. -/
def get_items (db : DBState) : List Row :=
  db.items.filterMap (fun it =>
    (db.categories.find? (fun c => c.id == it.category_id)).map (fun c => joinedRow it c))

/-- `GET /items/{item_id}`: `SELECT name, category, image_name FROM items
WHERE id = ?`, then 404 when no row matches. -/
def get_item (item_id : Nat) (db : DBState) : Except AppError Row :=
  match selectFromItems ["name", "category", "image_name"]
      (db.items.filter (fun r => r.id == item_id)) with
  | .error e => .error (.sql e)
  | .ok rows =>
    match rows with
    | [] => .error (.http 404 "Item not found")
    | r :: _ => .ok r

/-- `GET /search?keyword=`: `SELECT name, category, image_name FROM items
WHERE name LIKE ?` with pattern `%keyword%`. -/
def search_items (keyword : String) (db : DBState) : Except AppError (List Row) :=
  match selectFromItems ["name", "category", "image_name"]
      (db.items.filter (fun r => containsSub r.name.data keyword.data)) with
  | .error e => .error (.sql e)
  | .ok rows => .ok rows

/-! ## Handlers over the combined state -/

/-- The mutable world a request handler touches: the database file and
the images directory. -/
structure AppState where
  db : DBState
  fs : FS
deriving DecidableEq

/-- The image-saving fragment of `add_item` (the Image Store's `Save`):
hash the bytes, derive `"<hex>.jpg"`, write the file (overwriting), and
return the asset name. -/
def saveImage (image_data : List Nat) (fs : FS) : String × FS :=
  let image_hash := hexDigest (sha256 image_data)
  let image_name := image_hash ++ ".jpg"
  (image_name, fsWrite fs (imagePath image_name) image_data)

/-- `POST /items`: validate the form fields, save the image, resolve or
create the category, insert the item.  Returns the response (or error)
together with the state as it stands when the handler finishes. -/
def add_item (name category : String) (image_data : List Nat) (st : AppState) :
    Except AppError String × AppState :=
  if name = "" then (.error (.http 400 "name is required"), st)
  else if category = "" then (.error (.http 400 "category is required"), st)
  else
    let (image_name, fs1) := saveImage image_data st.fs
    let (category_id, db1) := get_category_id st.db category
    match insert_item { name := name, category_id := category_id, image_name := image_name } db1 with
    | .error e => (.error (.sql e), { db := db1, fs := fs1 })
    | .ok db2 => (.ok ("item received: " ++ name), { db := db2, fs := fs1 })

/-- `GET /image/{image_name}`: build the path by concatenation, reject
names that do not end in `.jpg`, fall back to `default.jpg` when the
file does not exist, then serve the file (`FileResponse` fails at send
time if even the fallback is missing). -/
def get_image (image_name : String) (fs : FS) : Except AppError (List Nat) :=
  let image := imagePath image_name
  if !(strEndsWith image_name ".jpg") then
    .error (.http 400 "Image path does not end with .jpg")
  else
    let image := if fsExists fs image then image else imagePath "default.jpg"
    match fsRead fs image with
    | some bytes => .ok bytes
    | none => .error (.http 500 "file missing at response time")

/-! ## Shared concrete states used by the theorems -/

def initialState : AppState := { db := emptyDB, fs := [] }

/-- A database holding one category and one item that references it. -/
def exampleDB : DBState :=
  { categories := [{ id := 1, name := "fruit" }],
    items := [{ id := 1, name := "apple", category_id := 1, image_name := "x.jpg" }],
    nextCategoryId := 2, nextItemId := 2 }

/-! ## Supporting lemmas -/

set_option maxRecDepth 40000 in
/-- FIPS 180-4 test vector: the embedded hash of the empty byte string is
the well-known SHA-256 digest, so `sha256` really is SHA-256. -/
theorem sha256_empty_vector :
    hexDigest (sha256 []) =
      "e3b0c44298fc1c149afbf4c8996fb92427ae41e4649b934ca495991b7852b855" := by decide

set_option maxRecDepth 40000 in
/-- FIPS 180-4 test vector: the embedded hash of `"abc"`. -/
theorem sha256_abc_vector :
    hexDigest (sha256 [0x61, 0x62, 0x63]) =
      "ba7816bf8f01cfea414140de5dae2223b00361a396177a9cb410ff61f20015ad" := by decide

theorem fsWriteKey_idem (fs : FS) (k : String) (v : List Nat) :
    fsWriteKey (fsWriteKey fs k v) k v = fsWriteKey fs k v := by
  induction fs with
  | nil => simp [fsWriteKey]
  | cons kv rest ih =>
    obtain ⟨k0, v0⟩ := kv
    by_cases h : k0 = k
    · simp [fsWriteKey, h]
    · simp [fsWriteKey, h, ih]

/-- `GET /items/{id}` propagates a `no such column: category` error for
every id and every database state: the SELECT names a column the `items`
table does not have. -/
theorem get_item_noSuchColumn (item_id : Nat) (db : DBState) :
    get_item item_id db = .error (.sql (.noSuchColumn "category")) := rfl

def hexAlphabet : List Char := "0123456789abcdef".data

theorem hexChar_mem : ∀ n, n < 16 → hexAlphabet.contains (hexChar n) = true := by decide

theorem toBytesBE_lt (len n : Nat) : ∀ b ∈ toBytesBE len n, b < 256 := by
  intro b hb
  simp only [toBytesBE, List.mem_map, List.mem_range] at hb
  obtain ⟨i, -, rfl⟩ := hb
  have h : (n >>> (8 * (len - 1 - i))) &&& 255 ≤ 255 := Nat.and_le_right
  omega

theorem mem_foldr_toBytes {hv : List Nat} {b : Nat}
    (hb : b ∈ hv.foldr (fun w acc => toBytesBE 4 w ++ acc) []) : b < 256 := by
  induction hv with
  | nil => simp at hb
  | cons w ws ih =>
    simp only [List.foldr_cons, List.mem_append] at hb
    rcases hb with h | h
    · exact toBytesBE_lt 4 w b h
    · exact ih h

theorem mem_sha256_lt (msg : List Nat) : ∀ b ∈ sha256 msg, b < 256 :=
  fun _ hb => mem_foldr_toBytes hb

theorem hexDigest_chars (bs : List Nat) (h : ∀ b ∈ bs, b < 256) :
    (hexDigest bs).data.all (fun c => hexAlphabet.contains c) = true := by
  induction bs with
  | nil => decide
  | cons b rest ih =>
    have hb : b < 256 := h b (List.mem_cons_self b rest)
    have ha : b / 16 < 16 := by omega
    have hm : b % 16 < 16 := by omega
    have ihr := ih (fun x hx => h x (List.mem_cons_of_mem b hx))
    simp only [hexDigest, List.foldr_cons, String.data] at ihr ⊢
    simp only [List.all_cons, Bool.and_eq_true]
    exact ⟨hexChar_mem _ ha, hexChar_mem _ hm, ihr⟩

theorem find?_append_none {α : Type} (p : α → Bool) (l1 l2 : List α)
    (h : l1.find? p = none) : (l1 ++ l2).find? p = l2.find? p := by
  induction l1 with
  | nil => simp
  | cons a as ih =>
    by_cases hpa : p a = true
    · rw [List.find?_cons_of_pos _ hpa] at h
      exact absurd h (by simp)
    · rw [List.find?_cons_of_neg _ (by simpa using hpa)] at h
      rw [List.cons_append, List.find?_cons_of_neg _ (by simpa using hpa)]
      exact ih h

theorem length_filterMap_of_isSome {α β : Type} (f : α → Option β) (l : List α)
    (h : ∀ a ∈ l, (f a).isSome = true) : (l.filterMap f).length = l.length := by
  induction l with
  | nil => rfl
  | cons a as ih =>
    obtain ⟨b, hb⟩ := Option.isSome_iff_exists.mp (h a (List.mem_cons_self a as))
    rw [List.filterMap_cons, hb]
    simp [ih (fun x hx => h x (List.mem_cons_of_mem a hx))]

/-- With foreign keys actually enforced (as on `setup_database`'s own
connection), the same dangling insert would be rejected: the failure
proved in the claim-2 theorem is entirely due to `get_db`'s connection
running with the pragma off. -/
theorem sqliteInsertItem_enforced_rejects_dangling :
    sqliteInsertItem true { name := "x", category_id := 999, image_name := "a.jpg" } emptyDB =
      .error .foreignKeyViolation := by decide

/-! ## Claim theorems -/

/-- C1: for every valid add-item submission (non-empty name, non-empty
category, image bytes), the submission itself succeeds, but the
subsequent `GetById` on any id — including the id of the inserted item —
does not return an ItemView: its SELECT names the nonexistent `items`
column `category` (the table has `category_id`), so SQLite raises
`OperationalError: no such column: category` and the endpoint fails with
a 500-class error instead of the claimed round-trip view. -/
theorem add_then_get_item_errors (name category : String) (image_data : List Nat)
    (st : AppState) (item_id : Nat) (hn : name ≠ "") (hc : category ≠ "") :
    (add_item name category image_data st).1 = .ok ("item received: " ++ name) ∧
    get_item item_id (add_item name category image_data st).2.db =
      .error (.sql (.noSuchColumn "category")) := by
  constructor
  · unfold add_item
    rw [if_neg hn, if_neg hc]
    rfl
  · exact get_item_noSuchColumn item_id _

theorem add_then_get_item_errors_witness :
    (add_item "apple" "fruit" [1] initialState).1 = .ok ("item received: " ++ "apple") ∧
    get_item 1 (add_item "apple" "fruit" [1] initialState).2.db =
      .error (.sql (.noSuchColumn "category")) :=
  add_then_get_item_errors "apple" "fruit" [1] initialState 1 (by decide) (by decide)

/-- C2: inserting an item whose `category_id` matches no category row
does NOT fail: the request connections produced by `get_db` never run
`PRAGMA foreign_keys = ON` (SQLite's per-connection default is OFF), so
the dangling row is appended and the referential-integrity invariant is
violated, contrary to the claim. -/
theorem insert_item_dangling_category_succeeds :
    insert_item { name := "x", category_id := 999, image_name := "a.jpg" } emptyDB =
      .ok { categories := [],
            items := [{ id := 1, name := "x", category_id := 999, image_name := "a.jpg" }],
            nextCategoryId := 1, nextItemId := 2 } ∧
    emptyDB.categories.any (fun c => c.id == 999) = false := by decide

/-- C3: `SearchByName` with the empty keyword does not return the stored
items: for every database state the query `SELECT name, category,
image_name FROM items` names the nonexistent column `category`, so the
endpoint fails with `OperationalError: no such column: category` rather
than succeeding. -/
theorem search_empty_keyword_errors (db : DBState) :
    search_items "" db = .error (.sql (.noSuchColumn "category")) := rfl

theorem search_empty_keyword_errors_witness :
    search_items "" exampleDB = .error (.sql (.noSuchColumn "category")) :=
  search_empty_keyword_errors exampleDB

/-- C4 counterexample: on a database with one item, `GET /items` returns
each row with keys `id, name, category, image_name` — not exactly the
claimed ItemView shape `name, category, image_name`. -/
theorem get_items_includes_id_key :
    (get_items exampleDB).map rowKeys = [["id", "name", "category", "image_name"]] ∧
    (["id", "name", "category", "image_name"] : List String) ≠
      ["name", "category", "image_name"] := by decide

/-- C4 amended: `GET /items` returns one row per stored item (whenever
every item's `category_id` resolves in the categories table, as the
intended referential-integrity invariant provides), each item joined to
its category's name, but in the shape `{id, name, category, image_name}`
— the ItemView fields plus the row id selected by the handler. -/
theorem get_items_joined_shape (db : DBState) (it : ItemRow) (c : CategoryRow)
    (hall : ∀ x ∈ db.items, (db.categories.find? (fun y => y.id == x.category_id)).isSome = true)
    (hit : it ∈ db.items)
    (hc : db.categories.find? (fun y => y.id == it.category_id) = some c) :
    (get_items db).length = db.items.length ∧
    joinedRow it c ∈ get_items db ∧
    rowKeys (joinedRow it c) = ["id", "name", "category", "image_name"] := by
  refine ⟨?_, ?_, rfl⟩
  · unfold get_items
    apply length_filterMap_of_isSome
    intro a ha
    have := hall a ha
    cases hfa : db.categories.find? (fun y => y.id == a.category_id) with
    | none => rw [hfa] at this; simp at this
    | some cc => rfl
  · unfold get_items
    exact List.mem_filterMap.mpr ⟨it, hit, by rw [hc]; rfl⟩

theorem get_items_joined_shape_witness :
    (get_items exampleDB).length = exampleDB.items.length ∧
    joinedRow { id := 1, name := "apple", category_id := 1, image_name := "x.jpg" }
        { id := 1, name := "fruit" } ∈ get_items exampleDB ∧
    rowKeys (joinedRow { id := 1, name := "apple", category_id := 1, image_name := "x.jpg" }
        { id := 1, name := "fruit" }) = ["id", "name", "category", "image_name"] :=
  get_items_joined_shape exampleDB
    { id := 1, name := "apple", category_id := 1, image_name := "x.jpg" }
    { id := 1, name := "fruit" } (by decide) (by decide) (by decide)

/-- C5: saving image bytes returns the asset name formed from the
lowercase hex SHA-256 digest suffixed `.jpg`; every digest character is
a lowercase hex character; and saving the same bytes a second time
yields the same asset name and overwrites the same file, leaving the
filesystem exactly as after the first save (idempotence by content). -/
theorem save_content_addressed_idempotent (B : List Nat) (fs : FS) :
    (saveImage B fs).1 = hexDigest (sha256 B) ++ ".jpg" ∧
    (hexDigest (sha256 B)).data.all (fun c => hexAlphabet.contains c) = true ∧
    (saveImage B (saveImage B fs).2).1 = (saveImage B fs).1 ∧
    (saveImage B (saveImage B fs).2).2 = (saveImage B fs).2 := by
  refine ⟨rfl, hexDigest_chars _ (mem_sha256_lt B), rfl, ?_⟩
  show fsWrite (fsWrite fs _ B) _ B = fsWrite fs _ B
  unfold fsWrite
  exact fsWriteKey_idem fs _ B

theorem save_content_addressed_idempotent_witness :
    (saveImage [1] []).1 = hexDigest (sha256 [1]) ++ ".jpg" ∧
    (hexDigest (sha256 [1])).data.all (fun c => hexAlphabet.contains c) = true ∧
    (saveImage [1] (saveImage [1] ([] : FS)).2).1 = (saveImage [1] ([] : FS)).1 ∧
    (saveImage [1] (saveImage [1] ([] : FS)).2).2 = (saveImage [1] ([] : FS)).2 :=
  save_content_addressed_idempotent [1] []

/-- C6: the first `ResolveOrCreate` call for a category name absent from
the table appends exactly one new row carrying the fresh id and returns
that id; calling it again with the same name returns the same id and
leaves the database unchanged. -/
theorem resolve_or_create_category (db : DBState) (C : String)
    (h : ∀ c ∈ db.categories, c.name ≠ C) :
    (get_category_id db C).1 = db.nextCategoryId ∧
    (get_category_id db C).2.categories =
      db.categories ++ [{ id := db.nextCategoryId, name := C }] ∧
    get_category_id (get_category_id db C).2 C =
      ((get_category_id db C).1, (get_category_id db C).2) := by
  have hnone : db.categories.find? (fun c => c.name == C) = none :=
    List.find?_eq_none.mpr (fun x hx => by simpa using h x hx)
  have h1 : get_category_id db C =
      (db.nextCategoryId,
       { db with
          categories := db.categories ++ [{ id := db.nextCategoryId, name := C }],
          nextCategoryId := db.nextCategoryId + 1 }) := by
    unfold get_category_id
    rw [hnone]
  refine ⟨by rw [h1], by rw [h1], ?_⟩
  rw [h1]
  unfold get_category_id
  simp only [find?_append_none _ _ _ hnone]
  simp [List.find?]

theorem resolve_or_create_category_witness :
    (get_category_id exampleDB "toy").1 = exampleDB.nextCategoryId ∧
    (get_category_id exampleDB "toy").2.categories =
      exampleDB.categories ++ [{ id := exampleDB.nextCategoryId, name := "toy" }] ∧
    get_category_id (get_category_id exampleDB "toy").2 "toy" =
      ((get_category_id exampleDB "toy").1, (get_category_id exampleDB "toy").2) :=
  resolve_or_create_category exampleDB "toy" (by decide)

/-- C7: fetching an asset name that ends in `.jpg` but names no existing
file returns the bytes of the reserved `default.jpg` asset, without
signalling an error. -/
theorem get_image_missing_falls_back (x : String) (fs : FS) (defBytes : List Nat)
    (hjpg : strEndsWith x ".jpg" = true)
    (hmiss : fsExists fs (imagePath x) = false)
    (hdef : fsRead fs (imagePath "default.jpg") = some defBytes) :
    get_image x fs = .ok defBytes := by
  unfold get_image
  rw [hjpg]
  simp [hmiss, hdef]

theorem get_image_missing_falls_back_witness :
    get_image "missing.jpg" [("images/default.jpg", [7, 8])] = .ok [7, 8] :=
  get_image_missing_falls_back "missing.jpg" [("images/default.jpg", [7, 8])] [7, 8]
    (by decide) (by decide) (by decide)

/-- C8: fetching an asset name that does not end in `.jpg` fails with the
400 `InvalidRequest` error, no matter what the filesystem holds — the
suffix check runs before any existence check. -/
theorem get_image_non_jpg_rejected (name : String) (fs : FS)
    (h : strEndsWith name ".jpg" = false) :
    get_image name fs = .error (.http 400 "Image path does not end with .jpg") := by
  unfold get_image
  rw [h]
  rfl

theorem get_image_non_jpg_rejected_witness :
    get_image "foo.png" [("images/foo.png", [1]), ("images/default.jpg", [7])] =
      .error (.http 400 "Image path does not end with .jpg") :=
  get_image_non_jpg_rejected "foo.png" [("images/foo.png", [1]), ("images/default.jpg", [7])]
    (by decide)

/-- C9: when the `name` or `category` form field is empty, `POST /items`
fails with an HTTP 400 `InvalidRequest` and performs no side effect at
all: the returned state — filesystem and database alike — is exactly the
input state, so no image is saved, no category created, no item
inserted. -/
theorem add_item_empty_field_rejected (name category : String) (image_data : List Nat)
    (st : AppState) (h : name = "" ∨ category = "") :
    (add_item name category image_data st).2 = st ∧
    ((add_item name category image_data st).1 = .error (.http 400 "name is required") ∨
     (add_item name category image_data st).1 = .error (.http 400 "category is required")) := by
  by_cases hn : name = ""
  · unfold add_item
    rw [if_pos hn]
    exact ⟨rfl, Or.inl rfl⟩
  · have hc : category = "" := h.resolve_left hn
    unfold add_item
    rw [if_neg hn, if_pos hc]
    exact ⟨rfl, Or.inr rfl⟩

theorem add_item_empty_field_rejected_witness :
    (add_item "" "toy" [1] initialState).2 = initialState ∧
    ((add_item "" "toy" [1] initialState).1 = .error (.http 400 "name is required") ∨
     (add_item "" "toy" [1] initialState).1 = .error (.http 400 "category is required")) :=
  add_item_empty_field_rejected "" "toy" [1] initialState (Or.inl rfl)

/-- C10: the image-fetch path is built by plain concatenation and never
checked for containment, so a request name with a parent-directory
segment — here `../secret.jpg`, which passes the `.jpg` suffix check —
resolves outside the images directory, and when such a file exists its
bytes are served. -/
theorem get_image_path_traversal :
    strEndsWith "../secret.jpg" ".jpg" = true ∧
    imagePath "../secret.jpg" = "images/../secret.jpg" ∧
    normalizePath (imagePath "../secret.jpg") = "secret.jpg" ∧
    strStartsWith (normalizePath (imagePath "../secret.jpg")) "images/" = false ∧
    get_image "../secret.jpg" [("secret.jpg", [42]), ("images/default.jpg", [0])] =
      .ok [42] := by decide

end Mercari
